import Mathlib

/-!
Verification development for the AgriCure soil-resolution service
(`backend/soil_api.py`).

The module resolves a geographic coordinate to a soil type and texture
properties through a cascade: a batch request to the SoilGrids provider,
an individual-property retry, a synthetic mock fallback, an optional
salinity/alkalinity refiner, an optional land-cover refiner, and a
texture decision table.  Results are cached by coordinate quantized to
five decimal places.

Shallow embedding conventions:
* Python floats are modelled as `ℚ` (all numerals in the source are
  exact decimals, so rational arithmetic is faithful for comparisons and
  the renormalization computation).
* A Python dict of soil properties is an association list `Props` with
  dict update semantics (`dset` replaces in place or appends).
* The network is an oracle (`Network`): for each outbound request it
  yields either a raised transport exception (`SGOutcome.exn`), or a
  response with a status code and a parsed JSON body (`none` models a
  body on which `.json()` raises).  Quantifying over the oracle covers
  every failure mode of the providers.
* Each operation returns, besides its value, the list of outbound
  requests it attempted (`List Req`), so that cache/trigger properties
  ("the second call makes no outbound request", "the land-cover lookup
  is never invoked") are statable.
-/

namespace SoilApi

/-- One entry of the SoilGrids response's "properties" array:
a name and, per depth band, the optional `values.mean` number
(`prop["depths"][d].get("values", {}).get("mean")`). -/
structure SGPropEntry where
  name : String
  depths : List (Option ℚ)
deriving DecidableEq

/-- Outcome of one HTTP GET against the SoilGrids endpoint:
either `requests.get` raises (`exn`), or it returns a status code and a
body; `none` for the body models a response whose `.json()` raises. -/
inductive SGOutcome where
  | exn : SGOutcome
  | ok : Nat → Option (List SGPropEntry) → SGOutcome
deriving DecidableEq

/-- Tags for outbound requests, used to build the request trace. -/
inductive Req where
  | batch : ℚ → ℚ → Req
  | indiv : String → ℚ → ℚ → Req
  | gsas : ℚ → ℚ → Req
  | bhuvan : ℚ → ℚ → Req
deriving DecidableEq

/-- The network oracle: responses of the external providers for each
possible request.  `gsasClass` abstracts the "class" string of the GSAS
point service (`none` = lookup failed or field absent); `bhuvanCat`
abstracts the category parsed from a Bhuvan GetFeatureInfo response
(`none` = failure or no recognized category).  Both of those endpoints
are disabled in the source (`GSAS_POINT_URL = None`, `BHUVAN_LAYER =
None`), so their parsing code is dead and only the call/no-call
behaviour matters. -/
structure Network where
  batchResp : ℚ → ℚ → SGOutcome
  indivResp : String → ℚ → ℚ → SGOutcome
  gsasClass : ℚ → ℚ → Option String
  bhuvanCat : ℚ → ℚ → Option String

/-- A Python dict from property names to floats, as an ordered
association list (insertion order, no duplicate keys when built by
`dset`). -/
abbrev Props := List (String × ℚ)

/-- Dict lookup: `props.get(k)` / `props[k]`. -/
def dget : Props → String → Option ℚ
  | [], _ => none
  | kv :: rest, k => if kv.1 = k then some kv.2 else dget rest k

/-- Dict update `props[k] = v`: replaces the value in place when the key
exists, otherwise appends (Python dicts keep insertion order). -/
def dset : Props → String → ℚ → Props
  | [], k, v => [(k, v)]
  | kv :: rest, k, v => if kv.1 = k then (k, v) :: rest else kv :: dset rest k v

/-- `d.update(e)`: fold the entries of `e` into `d` in order. -/
def dictUpdate (d e : Props) : Props :=
  e.foldl (fun acc kv => dset acc kv.1 kv.2) d

-- ---------- OPTIONAL CONFIG (module constants of the source) ----------

/-- `GSAS_POINT_URL = None` (salinity/alkalinity point service not
configured). -/
def GSAS_POINT_URL : Option String := none

/-- `BHUVAN_WMS_GFI` base endpoint string (non-empty). -/
def BHUVAN_WMS_GFI : String := "https://bhuvan-vec1.nrsc.gov.in/bhuvan/wms"

/-- `BHUVAN_LAYER = None` (land-cover layer not configured). -/
def BHUVAN_LAYER : Option String := none

-- ----------------------------------------------------------------------

/-- `in_india(lat, lon)`: the India bounding box. -/
def in_india (lat lon : ℚ) : Bool :=
  decide ((6 ≤ lat ∧ lat ≤ 37.2) ∧ (68 ≤ lon ∧ lon ≤ 97.5))

/-- `_get_mock_soil_data`: synthetic soil data by coarse latitude band.
Always returns a dict (the `Optional` in its signature is never `None`). -/
def get_mock_soil_data (lat lon : ℚ) : Option Props :=
  some (if in_india lat lon then
      if lat > 30 then
        [(("clay" : String), (25.0 : ℚ)), ("sand", 45.0), ("silt", 30.0), ("phh2o", 7.5)]
      else if lat < 15 then
        [(("clay" : String), (35.0 : ℚ)), ("sand", 40.0), ("silt", 25.0), ("phh2o", 6.8)]
      else
        [(("clay" : String), (40.0 : ℚ)), ("sand", 35.0), ("silt", 25.0), ("phh2o", 7.2)]
    else
      [(("clay" : String), (20.0 : ℚ)), ("sand", 50.0), ("silt", 30.0), ("phh2o", 7.0)])

/-- Parse the batch response's properties array (lines 106-120): skip
entries with no depths or no surface mean; texture fractions are g/kg
and divided by 10, other properties stored as returned. -/
def parse_batch_properties (data : List SGPropEntry) : Props :=
  data.foldl (fun props p =>
    match p.depths with
    | [] => props
    | surf :: _ =>
      match surf with
      | none => props
      | some val =>
        if p.name = "clay" ∨ p.name = "sand" ∨ p.name = "silt" then
          dset props p.name (val / 10)
        else
          dset props p.name val) []

/-- Renormalization step (lines 122-129): when all three texture
fractions are present and their sum is positive, rescale them so they
sum to 100. -/
def renormalize_textures (props : Props) : Props :=
  match dget props ("clay"), dget props ("sand"), dget props ("silt") with
  | some c, some sa, some si =>
    let s := c + sa + si
    if s > 0 then
      dset (dset (dset props ("clay") (c * 100.0 / s)) ("sand") (sa * 100.0 / s))
        ("silt") (si * 100.0 / s)
    else props
  | _, _, _ => props

/-- One iteration of `_get_soilgrids_individual`'s loop: issue the
per-property request, and on any failure (exception, non-200 status,
unparsable body, missing fields) leave the accumulator unchanged
(`except: continue`).  The attempted request is always recorded. -/
def indiv_step (api : Network) (lat lon : ℚ) (acc : Props × List Req)
    (propName : String) : Props × List Req :=
  let props := acc.1
  let tr := acc.2 ++ [Req.indiv propName lat lon]
  match api.indivResp propName lat lon with
  | SGOutcome.exn => (props, tr)
  | SGOutcome.ok status json =>
    if status = 200 then
      match json with
      | none => (props, tr)
      | some data =>
        match data with
        | [] => (props, tr)
        | p0 :: _ =>
          match p0.depths with
          | [] => (props, tr)
          | surf :: _ =>
            match surf with
            | none => (props, tr)
            | some val =>
              (dset props propName
                (if propName = "clay" ∨ propName = "sand" ∨ propName = "silt"
                 then val / 10 else val), tr)
    else (props, tr)

/-- `_get_soilgrids_individual`: one request per property, accumulating
whatever succeeds; returns `None` when the dict stays empty.  Note: no
renormalization happens on this path. -/
def get_soilgrids_individual (api : Network) (lat lon : ℚ) :
    Option Props × List Req :=
  let r := [("clay" : String), "sand", "silt", "phh2o"].foldl
    (indiv_step api lat lon) ([], [])
  ((if r.1 = [] then none else some r.1), r.2)

/-- `_get_soilgrids_data`: batch request; on non-200 status fall back to
individual requests; on a raised exception anywhere in the `try` block
(transport error on `requests.get`, or `r.json()` failing) the handler
at lines 132-135 returns mock data; an empty parsed dict yields `None`. -/
def get_soilgrids_data (api : Network) (lat lon : ℚ) :
    Option Props × List Req :=
  match api.batchResp lat lon with
  | SGOutcome.exn =>
    (get_mock_soil_data lat lon, [Req.batch lat lon])
  | SGOutcome.ok status json =>
    if status ≠ 200 then
      let r := get_soilgrids_individual api lat lon
      (r.1, Req.batch lat lon :: r.2)
    else
      match json with
      | none =>
        (get_mock_soil_data lat lon, [Req.batch lat lon])
      | some data =>
        let props := renormalize_textures (parse_batch_properties data)
        ((if props = [] then none else some props), [Req.batch lat lon])

/-- The pH heuristic tail of `_get_salt_alk_class` (lines 199-203):
when the properties dict is truthy and contains `phh2o ≥ 8.3`, classify
as Alkaline at confidence 0.65. -/
def ph_heuristic (sg : Option Props) : Option String × ℚ × Option String :=
  match sg with
  | some props =>
    if props ≠ [] then
      match dget props ("phh2o") with
      | some ph =>
        if ph ≥ 8.3 then (some ("Alkaline"), 0.65, some ("Heuristic(pH)"))
        else (none, 0.0, none)
      | none => (none, 0.0, none)
    else (none, 0.0, none)
  | none => (none, 0.0, none)

/-- `_get_salt_alk_class`: when the GSAS point service is configured,
query it and map its "class" string; a failed lookup is logged and falls
through.  With `GSAS_POINT_URL = None` (the source's configuration) only
the pH heuristic runs, with no outbound request. -/
def get_salt_alk_class (api : Network) (lat lon : ℚ) (sg : Option Props) :
    (Option String × ℚ × Option String) × List Req :=
  match GSAS_POINT_URL with
  | some _ =>
    let tr := [Req.gsas lat lon]
    match api.gsasClass lat lon with
    | some c0 =>
      let c := c0.toLower
      if c = "saline" ∨ c = "saline-sodic" then
        ((some ("Saline"), 0.9, some ("GSAS")), tr)
      else if c = "sodic" ∨ c = "alkaline" then
        ((some ("Alkaline"), 0.9, some ("GSAS")), tr)
      else (ph_heuristic sg, tr)
    | none => (ph_heuristic sg, tr)
  | none => (ph_heuristic sg, [])

/-- `_get_bhuvan_category`: returns `None` before any request when the
WMS endpoint or layer is not configured (lines 206-207); otherwise the
GetFeatureInfo call and its substring parsing are abstracted by the
`bhuvanCat` oracle (that code is dead under `BHUVAN_LAYER = None`). -/
def get_bhuvan_category (api : Network) (lat lon : ℚ) :
    Option String × List Req :=
  if BHUVAN_WMS_GFI ≠ "" ∧ BHUVAN_LAYER.isSome then
    (api.bhuvanCat lat lon, [Req.bhuvan lat lon])
  else (none, [])

/-- `_texture_family_from_soilgrids`: the 4-way coarse texture table.
`if not sg` is Python truthiness: `None` or the empty dict. -/
def texture_family_from_soilgrids (sg : Option Props) : String × ℚ :=
  match sg with
  | none => (("Loamy" : String), (0.25 : ℚ))
  | some props =>
    if props = [] then (("Loamy" : String), (0.25 : ℚ))
    else
      let clay := (dget props ("clay")).getD 0.0
      let sand := (dget props ("sand")).getD 0.0
      let silt := (dget props ("silt")).getD 0.0
      if clay ≥ 40 then (("Clayey" : String), (0.75 : ℚ))
      else if sand ≥ 70 then (("Sandy" : String), (0.70 : ℚ))
      else if silt ≥ 80 then (("Silty" : String), (0.70 : ℚ))
      else (("Loamy" : String), (0.60 : ℚ))

/-- The `location` field of a result: input coordinate plus the
timestamp taken at construction (`datetime.now().isoformat()`, modelled
as an opaque tick supplied by the caller). -/
structure LocationStamp where
  latitude : ℚ
  longitude : ℚ
  timestamp : Nat
deriving DecidableEq

/-- The result dict of `get_soil_data_by_location`. -/
structure SoilResult where
  location : LocationStamp
  soil_properties : Props
  soil_type : String
  confidence : ℚ
  sources : List String
  success : Bool
deriving DecidableEq

/-- The cache key (line 25): both coordinates formatted to five decimal
places; modelled as the pair of numerators after rounding to the nearest
multiple of 10⁻⁵. -/
def cacheKey (latitude longitude : ℚ) : ℤ × ℤ :=
  (round (latitude * 100000), round (longitude * 100000))

/-- `self.cache`: a dict from quantized keys to results. -/
abbrev Cache := List ((ℤ × ℤ) × SoilResult)

/-- Cache lookup. -/
def cacheGet : Cache → ℤ × ℤ → Option SoilResult
  | [], _ => none
  | e :: rest, k => if e.1 = k then some e.2 else cacheGet rest k

/-- Cache store `self.cache[cache_key] = out`. -/
def cacheSet : Cache → ℤ × ℤ → SoilResult → Cache
  | [], k, v => [(k, v)]
  | e :: rest, k, v => if e.1 = k then (k, v) :: rest else e :: cacheSet rest k v

/-- The body of `get_soil_data_by_location`'s `try` block (lines 30-77)
on a cache miss: build `out`, fetch SoilGrids data (falling back to mock
with a "Mock" source tag when the fetch yields `None`), apply the
salinity refiner, the land-cover refiner (gated on the bounding box and
`BHUVAN_LAYER`), and otherwise the texture table.  Returns the result
together with the trace of attempted outbound requests.  Every helper
catches its own failures, so this body never raises and the `except`
handler at lines 79-81 is unreachable. -/
def resolve_fresh (api : Network) (now : Nat) (latitude longitude : ℚ) :
    SoilResult × List Req :=
  let out : SoilResult :=
    { location := ⟨latitude, longitude, now⟩
      soil_properties := []
      soil_type := "Loamy"
      confidence := 0.25
      sources := []
      success := false }
  let fetched := get_soilgrids_data api latitude longitude
  let tr1 := fetched.2
  let step1 : Option Props × SoilResult :=
    match fetched.1 with
    | some props =>
      (some props,
        { out with
            soil_properties := dictUpdate out.soil_properties props
            sources := out.sources ++ [("SoilGrids" : String)] })
    | none =>
      match get_mock_soil_data latitude longitude with
      | some props =>
        (some props,
          { out with
              soil_properties := dictUpdate out.soil_properties props
              sources := out.sources ++ [("Mock" : String)] })
      | none => (none, out)
  let sg := step1.1
  let out := step1.2
  let salt := get_salt_alk_class api latitude longitude sg
  let tr2 := salt.2
  match salt.1 with
  | (some label, conf, src) =>
    ({ out with
        soil_type := label
        confidence := conf
        sources := out.sources ++
          (match src with
           | some s => if s ∈ out.sources then [] else [s]
           | none => [])
        success := true }, tr1 ++ tr2)
  | (none, _, _) =>
    let bh :=
      if in_india latitude longitude && BHUVAN_LAYER.isSome then
        get_bhuvan_category api latitude longitude
      else (none, [])
    let tr3 := bh.2
    let viaTexture : SoilResult × List Req :=
      let tex := texture_family_from_soilgrids sg
      ({ out with
          soil_type := tex.1
          confidence := tex.2
          success := sg.isSome }, tr1 ++ tr2 ++ tr3)
    match bh.1 with
    | some cat =>
      if cat = "Red" ∨ cat = "Black" ∨ cat = "Laterite" ∨ cat = "Peaty" then
        ({ out with
            soil_type := cat
            confidence := 0.85
            sources := out.sources ++ [("Bhuvan" : String)]
            success := true }, tr1 ++ tr2 ++ tr3)
      else viaTexture
    | none => viaTexture

/-- `get_soil_data_by_location`: serve from the cache when the quantized
key is present (no outbound request); otherwise compute a fresh result
and store it.  Every return point of the `try` block stores `out` under
the key before returning, and the `except` path (which would return
without caching) is unreachable because every helper handles its own
failures. -/
def get_soil_data_by_location (api : Network) (st : Cache) (now : Nat)
    (latitude longitude : ℚ) : SoilResult × Cache × List Req :=
  let key := cacheKey latitude longitude
  match cacheGet st key with
  | some cached => (cached, st, [])
  | none =>
    let r := resolve_fresh api now latitude longitude
    (r.1, cacheSet st key r.1, r.2)

-- ------------------------- concrete networks --------------------------

/-- A network on which every outbound request raises a transport
exception. -/
def exnNet : Network :=
  { batchResp := fun _ _ => SGOutcome.exn
    indivResp := fun _ _ _ => SGOutcome.exn
    gsasClass := fun _ _ => none
    bhuvanCat := fun _ _ => none }

/-- A network whose batch request succeeds (HTTP 200) but carries an
empty properties array, so the fetch yields no usable properties and
returns `None`; all other endpoints fail. -/
def emptyBatchNet : Network :=
  { batchResp := fun _ _ => SGOutcome.ok 200 (some [])
    indivResp := fun _ _ _ => SGOutcome.exn
    gsasClass := fun _ _ => none
    bhuvanCat := fun _ _ => none }

/-- A network whose batch request returns HTTP 500 and whose individual
property requests each return a surface mean of 100 g/kg, exercising
the individual-property retry path. -/
def indivNet : Network :=
  { batchResp := fun _ _ => SGOutcome.ok 500 none
    indivResp := fun n _ _ => SGOutcome.ok 200 (some [⟨n, [some 100]⟩])
    gsasClass := fun _ _ => none
    bhuvanCat := fun _ _ => none }

/-- A network whose batch request returns HTTP 200 with 100 g/kg for
each of the three texture fractions (and no pH). -/
def batchNet : Network :=
  { batchResp := fun _ _ => SGOutcome.ok 200 (some
      [⟨("clay"), [some 100]⟩, ⟨("sand"), [some 100]⟩, ⟨("silt"), [some 100]⟩])
    indivResp := fun _ _ _ => SGOutcome.exn
    gsasClass := fun _ _ => none
    bhuvanCat := fun _ _ => none }

/-- The mock fixture for central India (the band that contains
latitude 28.7). -/
def centralProps : Props :=
  [(("clay" : String), (40.0 : ℚ)), ("sand", 35.0), ("silt", 25.0), ("phh2o", 7.2)]

-- --------------------------- helper lemmas ----------------------------

theorem dget_dset_self (p : Props) (k : String) (v : ℚ) :
    dget (dset p k v) k = some v := by
  induction p with
  | nil => simp [dget, dset]
  | cons kv rest ih =>
    by_cases h : kv.1 = k
    · simp [dget, dset, h]
    · simp [dget, dset, h, ih]

theorem dget_dset_of_ne (p : Props) (k k' : String) (v : ℚ) (h : k ≠ k') :
    dget (dset p k v) k' = dget p k' := by
  induction p with
  | nil => simp [dget, dset, h]
  | cons kv rest ih =>
    by_cases hk : kv.1 = k
    · simp [dget, dset, hk, h, Ne.symm h]
    · by_cases hk' : kv.1 = k'
      · simp [dget, dset, hk, hk', Ne.symm h]
      · simp [dget, dset, hk, hk', ih]

theorem dget_some_ne_nil (p : Props) (k : String) (v : ℚ)
    (h : dget p k = some v) : p ≠ [] := by
  intro hnil
  rw [hnil] at h
  simp [dget] at h

theorem cacheGet_cacheSet_self (st : Cache) (k : ℤ × ℤ) (v : SoilResult) :
    cacheGet (cacheSet st k v) k = some v := by
  induction st with
  | nil => simp [cacheGet, cacheSet]
  | cons e rest ih =>
    by_cases h : e.1 = k
    · simp [cacheGet, cacheSet, h]
    · simp [cacheGet, cacheSet, h, ih]

/-- With `GSAS_POINT_URL = None` the salinity refiner is a pure pH
check: it issues no outbound request and its value is `ph_heuristic`. -/
theorem get_salt_alk_class_eq (api : Network) (lat lon : ℚ) (sg : Option Props) :
    get_salt_alk_class api lat lon sg = (ph_heuristic sg, []) := by
  simp [get_salt_alk_class, GSAS_POINT_URL]

/-- The pH heuristic returns either the Alkaline triple or the empty
triple. -/
theorem ph_heuristic_cases (sg : Option Props) :
    ph_heuristic sg = (some ("Alkaline"), 0.65, some ("Heuristic(pH)")) ∨
    ph_heuristic sg = (none, 0.0, none) := by
  simp only [ph_heuristic]
  split
  · split
    · split
      · split
        · left; rfl
        · right; rfl
      · right; rfl
    · right; rfl
  · right; rfl

/-- The mock data generator always returns one of the four fixed
bands. -/
theorem get_mock_soil_data_cases (lat lon : ℚ) :
    get_mock_soil_data lat lon =
      some [(("clay" : String), (25.0 : ℚ)), ("sand", 45.0), ("silt", 30.0), ("phh2o", 7.5)] ∨
    get_mock_soil_data lat lon =
      some [(("clay" : String), (35.0 : ℚ)), ("sand", 40.0), ("silt", 25.0), ("phh2o", 6.8)] ∨
    get_mock_soil_data lat lon =
      some [(("clay" : String), (40.0 : ℚ)), ("sand", 35.0), ("silt", 25.0), ("phh2o", 7.2)] ∨
    get_mock_soil_data lat lon =
      some [(("clay" : String), (20.0 : ℚ)), ("sand", 50.0), ("silt", 30.0), ("phh2o", 7.0)] := by
  unfold get_mock_soil_data
  by_cases h1 : in_india lat lon
  · by_cases h2 : lat > 30
    · simp [h1, h2]
    · by_cases h3 : lat < 15
      · simp [h1, h2, h3]
      · simp [h1, h2, h3]
  · simp [h1]

/-- Each step of the individual-property loop appends exactly its own
request to the trace. -/
theorem indiv_step_trace (api : Network) (lat lon : ℚ) (acc : Props × List Req)
    (propName : String) :
    (indiv_step api lat lon acc propName).2 = acc.2 ++ [Req.indiv propName lat lon] := by
  unfold indiv_step
  repeat' split <;> try rfl

/-- The trace of the individual-property retry is exactly the four
per-property requests. -/
theorem get_soilgrids_individual_trace (api : Network) (lat lon : ℚ) :
    (get_soilgrids_individual api lat lon).2 =
      [Req.indiv ("clay") lat lon, Req.indiv ("sand") lat lon,
       Req.indiv ("silt") lat lon, Req.indiv ("phh2o") lat lon] := by
  unfold get_soilgrids_individual
  simp [List.foldl, indiv_step_trace]

/-- Every request attempted by the SoilGrids fetcher targets the
SoilGrids endpoints: the trace never contains a Bhuvan (or GSAS)
request. -/
theorem get_soilgrids_data_trace (api : Network) (lat lon : ℚ) :
    (get_soilgrids_data api lat lon).2 = [Req.batch lat lon] ∨
    (get_soilgrids_data api lat lon).2 =
      [Req.batch lat lon, Req.indiv ("clay") lat lon, Req.indiv ("sand") lat lon,
       Req.indiv ("silt") lat lon, Req.indiv ("phh2o") lat lon] := by
  simp only [get_soilgrids_data]
  split
  · exact Or.inl rfl
  · split
    · right
      simp [get_soilgrids_individual_trace]
    · split
      · exact Or.inl rfl
      · exact Or.inl rfl

/-- On a fresh computation the result keeps the input coordinate and
construction timestamp in its `location` field, whatever the network
does. -/
theorem resolve_fresh_location (api : Network) (now : Nat) (lat lon : ℚ) :
    (resolve_fresh api now lat lon).1.location = ⟨lat, lon, now⟩ := by
  simp only [resolve_fresh]
  repeat' split <;> try rfl

-- ----------------------------- claims -------------------------------

/-- Claim C10 (confirmed): the mock generator is total — for every
coordinate it returns a dict (never `None`) whose keys are exactly
clay, sand, silt, phh2o in this order, and in each of its four fixed
bands the texture fractions sum to exactly 100, so mock-based results
satisfy the sum-to-100 invariant without renormalization. -/
theorem mock_data_total_with_exact_sum (lat lon : ℚ) :
    ∃ c sa si ph : ℚ,
      get_mock_soil_data lat lon =
        some [(("clay" : String), c), ("sand", sa), ("silt", si), ("phh2o", ph)] ∧
      c + sa + si = 100 := by
  rcases get_mock_soil_data_cases lat lon with h | h | h | h <;>
    exact ⟨_, _, _, _, h, by norm_num⟩

/-- Claim C5 (confirmed): the texture classifier is a pure total
function implementing the 4-way coarse family table in the documented
order: clay ≥ 40 (a non-strict comparison, so clay exactly 40.0 is
clay-dominant) gives ("Clayey", 0.75); otherwise sand ≥ 70 gives
("Sandy", 0.70); otherwise silt ≥ 80 gives ("Silty", 0.70); otherwise
("Loamy", 0.60); with no texture data at all (`None` or an empty dict,
Python falsiness) it gives ("Loamy", 0.25).  Missing individual keys
default to 0. -/
theorem texture_family_table :
    (∀ props : Props, props ≠ [] → (dget props ("clay")).getD 0.0 ≥ 40 →
      texture_family_from_soilgrids (some props) = (("Clayey" : String), 0.75)) ∧
    (∀ props : Props, props ≠ [] → (dget props ("clay")).getD 0.0 < 40 →
      (dget props ("sand")).getD 0.0 ≥ 70 →
      texture_family_from_soilgrids (some props) = (("Sandy" : String), 0.70)) ∧
    (∀ props : Props, props ≠ [] → (dget props ("clay")).getD 0.0 < 40 →
      (dget props ("sand")).getD 0.0 < 70 → (dget props ("silt")).getD 0.0 ≥ 80 →
      texture_family_from_soilgrids (some props) = (("Silty" : String), 0.70)) ∧
    (∀ props : Props, props ≠ [] → (dget props ("clay")).getD 0.0 < 40 →
      (dget props ("sand")).getD 0.0 < 70 → (dget props ("silt")).getD 0.0 < 80 →
      texture_family_from_soilgrids (some props) = (("Loamy" : String), 0.60)) ∧
    texture_family_from_soilgrids none = (("Loamy" : String), 0.25) ∧
    texture_family_from_soilgrids (some []) = (("Loamy" : String), 0.25) := by
  refine ⟨?_, ?_, ?_, ?_, rfl, rfl⟩
  · intro props hne h40
    simp [texture_family_from_soilgrids, hne, h40]
  · intro props hne h40 h70
    simp [texture_family_from_soilgrids, hne, not_le.mpr h40, h70]
  · intro props hne h40 h70 h80
    simp [texture_family_from_soilgrids, hne, not_le.mpr h40, not_le.mpr h70, h80]
  · intro props hne h40 h70 h80
    simp [texture_family_from_soilgrids, hne, not_le.mpr h40, not_le.mpr h70, not_le.mpr h80]

theorem texture_family_table_witness :
    texture_family_from_soilgrids (some [(("clay" : String), (40.0 : ℚ))]) =
      (("Clayey" : String), 0.75) :=
  texture_family_table.1 [(("clay" : String), (40.0 : ℚ))] (by simp) (by norm_num [dget])

/-- helper for C7 -/
theorem ph_heuristic_alk_iff (sg : Option Props) :
    ph_heuristic sg = (some ("Alkaline"), 0.65, some ("Heuristic(pH)")) ↔
    ∃ props ph, sg = some props ∧ dget props ("phh2o") = some ph ∧ ph ≥ 8.3 := by
  constructor
  · intro h
    rcases sg with _ | props
    · simp [ph_heuristic] at h
    · by_cases hp : props = []
      · subst hp; simp [ph_heuristic] at h
      · rcases hd : dget props ("phh2o") with _ | ph
        · simp [ph_heuristic, hp, hd] at h
        · by_cases hge : ph ≥ 8.3
          · exact ⟨props, ph, rfl, hd, hge⟩
          · simp [ph_heuristic, hp, hd, hge] at h
  · rintro ⟨props, ph, rfl, hd, hge⟩
    have hp : props ≠ [] := dget_some_ne_nil props _ ph hd
    simp [ph_heuristic, hp, hd, hge]

/-- Claim C7 (confirmed): with the GSAS point service unconfigured
(`GSAS_POINT_URL = None`, as in the source), the salinity refiner
returns ("Alkaline", 0.65, "Heuristic(pH)") — with no outbound
request — if and only if the supplied properties contain `phh2o` with a
value ≥ 8.3; in every other case it returns the empty triple
`(None, 0.0, None)`, letting the cascade proceed. -/
theorem salt_alk_unconfigured_iff (api : Network) (lat lon : ℚ) (sg : Option Props) :
    (get_salt_alk_class api lat lon sg =
        ((some ("Alkaline"), 0.65, some ("Heuristic(pH)")), []) ↔
      ∃ props ph, sg = some props ∧ dget props ("phh2o") = some ph ∧ ph ≥ 8.3) ∧
    ((¬ ∃ props ph, sg = some props ∧ dget props ("phh2o") = some ph ∧ ph ≥ 8.3) →
      get_salt_alk_class api lat lon sg = ((none, 0.0, none), [])) := by
  rw [get_salt_alk_class_eq]
  constructor
  · rw [Prod.mk.injEq]
    constructor
    · intro h
      exact (ph_heuristic_alk_iff sg).mp h.1
    · intro h
      exact ⟨(ph_heuristic_alk_iff sg).mpr h, rfl⟩
  · intro hno
    rcases ph_heuristic_cases sg with h | h
    · exact absurd ((ph_heuristic_alk_iff sg).mp h) hno
    · rw [h]

theorem salt_alk_unconfigured_witness :
    get_salt_alk_class exnNet 0 0 (some [(("phh2o" : String), (9 : ℚ))]) =
      ((some ("Alkaline"), 0.65, some ("Heuristic(pH)")), []) :=
  (salt_alk_unconfigured_iff exnNet 0 0 (some [(("phh2o" : String), (9 : ℚ))])).1.mpr
    ⟨[(("phh2o" : String), (9 : ℚ))], 9, rfl, by simp [dget], by norm_num⟩

/-- At (28.7, 77.1) with a batch transport error, the fetcher returns
the central-India mock fixture as if it were provider data. -/
theorem delhi_exn_fetch :
    get_soilgrids_data exnNet 28.7 77.1 = (some centralProps, [Req.batch 28.7 77.1]) := by
  simp [get_soilgrids_data, exnNet, get_mock_soil_data, in_india, centralProps]; norm_num

/-- At (28.7, 77.1) with an empty 200 batch response, the fetcher
returns `None`. -/
theorem delhi_empty_fetch :
    get_soilgrids_data emptyBatchNet 28.7 77.1 = (none, [Req.batch 28.7 77.1]) := by
  simp [get_soilgrids_data, emptyBatchNet, parse_batch_properties, renormalize_textures, dget]

theorem delhi_salt :
    get_salt_alk_class exnNet 28.7 77.1 (some centralProps) = ((none, 0.0, none), []) ∧
    get_salt_alk_class emptyBatchNet 28.7 77.1 (some centralProps) = ((none, 0.0, none), []) := by
  constructor <;> (rw [get_salt_alk_class_eq]; simp [ph_heuristic, centralProps, dget]; norm_num)

theorem delhi_exn_result :
    (get_soil_data_by_location exnNet [] 0 28.7 77.1).1 =
      { location := ⟨28.7, 77.1, 0⟩
        soil_properties := centralProps
        soil_type := "Clayey"
        confidence := 0.75
        sources := [("SoilGrids" : String)]
        success := true } := by
  have h3 : texture_family_from_soilgrids (some centralProps) = (("Clayey" : String), 0.75) := by
    simp [texture_family_from_soilgrids, centralProps, dget]; norm_num
  simp only [get_soil_data_by_location, resolve_fresh, cacheGet, delhi_exn_fetch, delhi_salt.1,
    h3, dictUpdate, List.foldl, BHUVAN_LAYER, Option.isSome, List.nil_append, List.append_nil,
    Bool.and_false]
  simp [centralProps, dset]

theorem delhi_mock_result :
    (get_soil_data_by_location emptyBatchNet [] 0 28.7 77.1).1 =
      { location := ⟨28.7, 77.1, 0⟩
        soil_properties := centralProps
        soil_type := "Clayey"
        confidence := 0.75
        sources := [("Mock" : String)]
        success := true } := by
  have hm : get_mock_soil_data 28.7 77.1 = some centralProps := by
    simp [get_mock_soil_data, in_india, centralProps]; norm_num
  have h3 : texture_family_from_soilgrids (some centralProps) = (("Clayey" : String), 0.75) := by
    simp [texture_family_from_soilgrids, centralProps, dget]; norm_num
  simp only [get_soil_data_by_location, resolve_fresh, cacheGet, delhi_empty_fetch, hm,
    delhi_salt.2, h3, dictUpdate, List.foldl, BHUVAN_LAYER, Option.isSome, List.nil_append,
    List.append_nil, Bool.and_false]
  simp [centralProps, dset]

/-- Claim C1 (code bug): the claim says that whenever mock data is
substituted for measured provider data the result's `sources` must
contain the "Mock" tag and the data must never be presented as coming
only from "SoilGrids".  The code violates this on the exception path:
at (28.7, 77.1) with the batch request raising a transport error,
`_get_soilgrids_data`'s handler returns the mock fixture itself, so the
caller tags the mock values "SoilGrids" and no "Mock" tag appears.
This theorem evaluates the code at that failing input. -/
theorem mock_masquerades_as_soilgrids :
    get_mock_soil_data 28.7 77.1 = some centralProps ∧
    (get_soilgrids_data exnNet 28.7 77.1).1 = some centralProps ∧
    (get_soil_data_by_location exnNet [] 0 28.7 77.1).1.soil_properties = centralProps ∧
    (get_soil_data_by_location exnNet [] 0 28.7 77.1).1.sources = [("SoilGrids" : String)] ∧
    ("Mock" : String) ∉ (get_soil_data_by_location exnNet [] 0 28.7 77.1).1.sources := by
  refine ⟨?_, ?_, ?_, ?_, ?_⟩
  · simp [get_mock_soil_data, in_india, centralProps]; norm_num
  · rw [delhi_exn_fetch]
  · rw [delhi_exn_result]
  · rw [delhi_exn_result]
  · rw [delhi_exn_result]; simp

/-- Claim C2, counterexample: at (28.7, 77.1) with the primary
provider returning no usable properties (mock fallback active, no
salinity or land-cover override), the result has `success = true` and
confidence 0.75, not `success = false` with confidence below 0.5 as the
claim states. -/
theorem mock_fallback_claim_counterexample :
    (get_soilgrids_data emptyBatchNet 28.7 77.1).1 = none ∧
    (get_soil_data_by_location emptyBatchNet [] 0 28.7 77.1).1.sources = [("Mock" : String)] ∧
    (get_soil_data_by_location emptyBatchNet [] 0 28.7 77.1).1.success = true ∧
    ¬ (get_soil_data_by_location emptyBatchNet [] 0 28.7 77.1).1.confidence < 0.5 := by
  refine ⟨?_, ?_, ?_, ?_⟩
  · rw [delhi_empty_fetch]
  · rw [delhi_mock_result]
  · rw [delhi_mock_result]
  · rw [delhi_mock_result]; norm_num

/-- Claim C2, amended: for every coordinate, when the primary provider
fetch yields no properties and the mock fallback supplies them (the pH
of every mock band is below 8.3, so no salinity override can fire, and
the land-cover layer is unconfigured), the result's sources are exactly
["Mock"], `success` is `true` (the code sets `success = bool(sg is not
None)` and the mock dict is never `None`), and the confidence is the
texture-table confidence, which is at least 0.5 — degraded provenance is
signalled only by the "Mock" source tag. -/
theorem mock_fallback_degraded_amended (api : Network) (st : Cache) (now : Nat) (lat lon : ℚ)
    (hmiss : cacheGet st (cacheKey lat lon) = none)
    (hfail : (get_soilgrids_data api lat lon).1 = none) :
    (get_soil_data_by_location api st now lat lon).1.sources = [("Mock" : String)] ∧
    (get_soil_data_by_location api st now lat lon).1.success = true ∧
    (1 : ℚ)/2 ≤ (get_soil_data_by_location api st now lat lon).1.confidence := by
  rcases get_mock_soil_data_cases lat lon with hm | hm | hm | hm <;>
    refine ⟨?_, ?_, ?_⟩ <;>
      (simp only [get_soil_data_by_location, hmiss, resolve_fresh, hfail, hm,
         get_salt_alk_class_eq, dictUpdate, List.foldl, BHUVAN_LAYER, Option.isSome,
         Bool.and_false, List.nil_append, List.append_nil];
       simp [ph_heuristic, texture_family_from_soilgrids, dget, dset]) <;>
      try norm_num

theorem mock_fallback_degraded_witness :
    (get_soil_data_by_location emptyBatchNet [] 0 28.7 77.1).1.sources = [("Mock" : String)] ∧
    (get_soil_data_by_location emptyBatchNet [] 0 28.7 77.1).1.success = true ∧
    (1 : ℚ)/2 ≤ (get_soil_data_by_location emptyBatchNet [] 0 28.7 77.1).1.confidence :=
  mock_fallback_degraded_amended emptyBatchNet [] 0 28.7 77.1 rfl (by rw [delhi_empty_fetch])

/-- Claim C3, counterexample: latitude 28.7 is not greater than 30, so
the mock generator returns the central-India band (clay 40, sand 35,
silt 25, pH 7.2), not the claimed clay 25 / sand 45 / silt 30 / pH 7.5;
with clay = 40 the texture table returns ("Clayey", 0.75), not
("Loamy", 0.60). -/
theorem coordinate_example_counterexample :
    get_mock_soil_data 28.7 77.1 = some centralProps ∧
    dget centralProps ("clay") = some 40.0 ∧ (40.0 : ℚ) ≠ 25.0 ∧
    (get_soil_data_by_location emptyBatchNet [] 0 28.7 77.1).1.soil_type = "Clayey" ∧
    ("Clayey" : String) ≠ "Loamy" ∧
    (get_soil_data_by_location emptyBatchNet [] 0 28.7 77.1).1.confidence = 0.75 ∧
    (0.75 : ℚ) ≠ 0.60 := by
  refine ⟨?_, ?_, by norm_num, ?_, by decide, ?_, by norm_num⟩
  · simp [get_mock_soil_data, in_india, centralProps]; norm_num
  · simp [centralProps, dget]
  · rw [delhi_mock_result]
  · rw [delhi_mock_result]

/-- Claim C3, amended: with the mock fallback active,
`get_soil_data_by_location(28.7, 77.1)` yields soil properties
clay = 40.0, sand = 35.0, silt = 25.0, phh2o = 7.2 (the central-India
band, since 28.7 is between 15 and 30) and classifies the result as
"Clayey" with confidence 0.75 under the 4-way policy, sourced from
"Mock". -/
theorem coordinate_example_amended :
    (get_soil_data_by_location emptyBatchNet [] 0 28.7 77.1).1.soil_properties =
      [(("clay" : String), (40.0 : ℚ)), ("sand", 35.0), ("silt", 25.0), ("phh2o", 7.2)] ∧
    (get_soil_data_by_location emptyBatchNet [] 0 28.7 77.1).1.soil_type = "Clayey" ∧
    (get_soil_data_by_location emptyBatchNet [] 0 28.7 77.1).1.confidence = 0.75 ∧
    (get_soil_data_by_location emptyBatchNet [] 0 28.7 77.1).1.sources = [("Mock" : String)] := by
  refine ⟨?_, ?_, ?_, ?_⟩ <;> rw [delhi_mock_result]
  simp [centralProps]

/-- Claim C4, counterexample: the claimed invariant does not hold on the
individual-property retry path.  With the batch request answering 500
and each per-property request answering 100 g/kg, the fetcher returns
clay = sand = silt = 10 (g/kg divided by 10, no renormalization), which
sum to 30, not 100. -/
theorem renormalization_counterexample :
    (get_soilgrids_data indivNet 0 0).1 =
      some [(("clay" : String), (10 : ℚ)), ("sand", 10), ("silt", 10), ("phh2o", 100)] ∧
    (dget [(("clay" : String), (10 : ℚ)), ("sand", 10), ("silt", 10), ("phh2o", 100)]
        ("clay")).getD 0 +
      (dget [(("clay" : String), (10 : ℚ)), ("sand", 10), ("silt", 10), ("phh2o", 100)]
        ("sand")).getD 0 +
      (dget [(("clay" : String), (10 : ℚ)), ("sand", 10), ("silt", 10), ("phh2o", 100)]
        ("silt")).getD 0 = 30 ∧
    (30 : ℚ) ≠ 100 := by
  refine ⟨?_, ?_, by norm_num⟩
  · simp [get_soilgrids_data, get_soilgrids_individual, indiv_step, indivNet, List.foldl, dset]
    norm_num
  · simp [dget]
    norm_num

/-- Claim C4, amended: renormalization applies only on the successful
batch path.  For every batch response whose parsed properties contain
all three texture fractions with a positive sum, the returned dict's
clay + sand + silt equals exactly 100 (exact in rational arithmetic);
the individual-property retry path stores converted raw values without
renormalizing (see the counterexample). -/
theorem renormalization_batch_amended (api : Network) (lat lon : ℚ)
    (data : List SGPropEntry)
    (hresp : api.batchResp lat lon = SGOutcome.ok 200 (some data))
    (c sa si : ℚ)
    (hc : dget (parse_batch_properties data) ("clay") = some c)
    (hsa : dget (parse_batch_properties data) ("sand") = some sa)
    (hsi : dget (parse_batch_properties data) ("silt") = some si)
    (hpos : 0 < c + sa + si)
    (props : Props)
    (hres : (get_soilgrids_data api lat lon).1 = some props) :
    (dget props ("clay")).getD 0 + (dget props ("sand")).getD 0 +
      (dget props ("silt")).getD 0 = 100 := by
  have hsne : c + sa + si ≠ 0 := ne_of_gt hpos
  have hrenorm : renormalize_textures (parse_batch_properties data) =
      dset (dset (dset (parse_batch_properties data) ("clay") (c * 100.0 / (c + sa + si)))
        ("sand") (sa * 100.0 / (c + sa + si))) ("silt") (si * 100.0 / (c + sa + si)) := by
    simp only [renormalize_textures, hc, hsa, hsi]
    rw [if_pos hpos]
  have hgc : dget (renormalize_textures (parse_batch_properties data)) ("clay")
      = some (c * 100.0 / (c + sa + si)) := by
    rw [hrenorm, dget_dset_of_ne _ _ _ _ (by decide), dget_dset_of_ne _ _ _ _ (by decide),
      dget_dset_self]
  have hgsa : dget (renormalize_textures (parse_batch_properties data)) ("sand")
      = some (sa * 100.0 / (c + sa + si)) := by
    rw [hrenorm, dget_dset_of_ne _ _ _ _ (by decide), dget_dset_self]
  have hgsi : dget (renormalize_textures (parse_batch_properties data)) ("silt")
      = some (si * 100.0 / (c + sa + si)) := by
    rw [hrenorm, dget_dset_self]
  have hne : renormalize_textures (parse_batch_properties data) ≠ [] :=
    dget_some_ne_nil _ ("clay") _ hgc
  have hval : (get_soilgrids_data api lat lon).1 =
      some (renormalize_textures (parse_batch_properties data)) := by
    simp only [get_soilgrids_data, hresp]
    simp only [ne_eq, not_true_eq_false, if_false, hne, if_true]
  rw [hval] at hres
  have hprops : props = renormalize_textures (parse_batch_properties data) :=
    (Option.some.inj hres).symm
  rw [hprops, hgc, hgsa, hgsi]
  simp only [Option.getD_some]
  field_simp
  ring

theorem renormalization_batch_witness :
    (dget [(("clay" : String), (100/3 : ℚ)), ("sand", 100/3), ("silt", 100/3)] ("clay")).getD 0 +
    (dget [(("clay" : String), (100/3 : ℚ)), ("sand", 100/3), ("silt", 100/3)] ("sand")).getD 0 +
    (dget [(("clay" : String), (100/3 : ℚ)), ("sand", 100/3), ("silt", 100/3)] ("silt")).getD 0
      = 100 :=
  renormalization_batch_amended batchNet 0 0
    [⟨("clay"), [some 100]⟩, ⟨("sand"), [some 100]⟩, ⟨("silt"), [some 100]⟩] rfl
    10 10 10
    (by simp [parse_batch_properties, List.foldl, dset, dget]; norm_num)
    (by simp [parse_batch_properties, List.foldl, dset, dget]; norm_num)
    (by simp [parse_batch_properties, List.foldl, dset, dget]; norm_num)
    (by norm_num)
    [(("clay" : String), (100/3 : ℚ)), ("sand", 100/3), ("silt", 100/3)]
    (by simp [get_soilgrids_data, batchNet, parse_batch_properties, renormalize_textures,
          List.foldl, dget, dset]
        norm_num
        decide)

/-- Claim C6 (confirmed): `get_soil_data_by_location` never surfaces an
error: for every coordinate, every cache state and every behaviour of
the provider network (the oracle covers transport exceptions, non-200
statuses and unparsable bodies at each endpoint), the call returns a
`SoilResult` — either the cached one, or a fresh result carrying the
input coordinate in its `location` that is also stored in the cache.
Every raise-capable operation is handled inside the helpers, so the
outer `except` never fires. -/
theorem always_returns_result (api : Network) (st : Cache) (now : Nat) (lat lon : ℚ) :
    ∃ r c tr, get_soil_data_by_location api st now lat lon = (r, c, tr) ∧
      (cacheGet st (cacheKey lat lon) = some r ∨
        (r.location = ⟨lat, lon, now⟩ ∧ cacheGet c (cacheKey lat lon) = some r)) := by
  simp only [get_soil_data_by_location]
  cases h : cacheGet st (cacheKey lat lon) with
  | some cached => exact ⟨cached, st, [], rfl, Or.inl rfl⟩
  | none =>
    exact ⟨(resolve_fresh api now lat lon).1,
      cacheSet st (cacheKey lat lon) (resolve_fresh api now lat lon).1,
      (resolve_fresh api now lat lon).2, rfl,
      Or.inr ⟨resolve_fresh_location api now lat lon, cacheGet_cacheSet_self st _ _⟩⟩

/-- Claim C8 (confirmed): for any two consecutive calls whose
coordinates round to the same 5-decimal cache key, the second call
returns a result structurally identical to the first, leaves the cache
unchanged, and performs no outbound request (its trace is empty) —
whatever the network does on either call. -/
theorem cache_idempotent (api₁ api₂ : Network) (st : Cache) (now₁ now₂ : Nat)
    (lat₁ lon₁ lat₂ lon₂ : ℚ)
    (hkey : cacheKey lat₁ lon₁ = cacheKey lat₂ lon₂) :
    get_soil_data_by_location api₂ (get_soil_data_by_location api₁ st now₁ lat₁ lon₁).2.1
        now₂ lat₂ lon₂ =
      ((get_soil_data_by_location api₁ st now₁ lat₁ lon₁).1,
       (get_soil_data_by_location api₁ st now₁ lat₁ lon₁).2.1, []) := by
  simp only [get_soil_data_by_location]
  rw [← hkey]
  cases h : cacheGet st (cacheKey lat₁ lon₁) with
  | some cached => simp [h]
  | none => simp [h, cacheGet_cacheSet_self]

theorem cache_idempotent_witness :
    get_soil_data_by_location emptyBatchNet
        (get_soil_data_by_location exnNet [] 5 1.000001 2.0).2.1 7 1.000002 2.0 =
      ((get_soil_data_by_location exnNet [] 5 1.000001 2.0).1,
       (get_soil_data_by_location exnNet [] 5 1.000001 2.0).2.1, []) :=
  cache_idempotent exnNet emptyBatchNet [] 5 7 1.000001 2.0 1.000002 2.0
    (by norm_num [cacheKey, round_eq])

/-- helper for C9: the fresh computation never attempts a Bhuvan request
and never adds the "Bhuvan" source, because `BHUVAN_LAYER` is `None`. -/
theorem resolve_fresh_no_bhuvan (api : Network) (now : Nat) (lat lon : ℚ) :
    (∀ a b : ℚ, Req.bhuvan a b ∉ (resolve_fresh api now lat lon).2) ∧
    ("Bhuvan" : String) ∉ (resolve_fresh api now lat lon).1.sources := by
  have htr := get_soilgrids_data_trace api lat lon
  rcases hf : (get_soilgrids_data api lat lon).1 with _ | props
  · rcases hm : get_mock_soil_data lat lon with _ | mp
    · rcases ph_heuristic_cases (none : Option Props) with hph | hph <;>
        (simp only [resolve_fresh, hf, hm, get_salt_alk_class_eq, hph, BHUVAN_LAYER,
          Option.isSome_none, Bool.and_false]; constructor) <;>
        (try intro a b) <;> rcases htr with h | h <;> simp [h]
    · rcases ph_heuristic_cases (some mp) with hph | hph <;>
        (simp only [resolve_fresh, hf, hm, get_salt_alk_class_eq, hph, BHUVAN_LAYER,
          Option.isSome_none, Bool.and_false]; constructor) <;>
        (try intro a b) <;> rcases htr with h | h <;> simp [h]
  · rcases ph_heuristic_cases (some props) with hph | hph <;>
      (simp only [resolve_fresh, hf, get_salt_alk_class_eq, hph, BHUVAN_LAYER,
        Option.isSome_none, Bool.and_false]; constructor) <;>
      (try intro a b) <;> rcases htr with h | h <;> simp [h]

/-- Claim C9 (confirmed): for every coordinate outside the India
bounding box (and any cache whose entries never carried the "Bhuvan"
source), `get_soil_data_by_location` never attempts a Bhuvan
(land-cover) request — no `Req.bhuvan` tag appears in the outbound
trace — and "Bhuvan" does not appear in the result's sources.  (With
`BHUVAN_LAYER = None` the lookup is in fact disabled everywhere.) -/
theorem no_bhuvan_outside_box (api : Network) (st : Cache) (now : Nat) (lat lon : ℚ)
    (hout : in_india lat lon = false)
    (hst : ∀ k r, cacheGet st k = some r → ("Bhuvan" : String) ∉ r.sources) :
    (∀ a b : ℚ, Req.bhuvan a b ∉ (get_soil_data_by_location api st now lat lon).2.2) ∧
    ("Bhuvan" : String) ∉ (get_soil_data_by_location api st now lat lon).1.sources := by
  simp only [get_soil_data_by_location]
  cases h : cacheGet st (cacheKey lat lon) with
  | some cached =>
    refine ⟨?_, hst _ _ h⟩
    intro a b
    simp
  | none =>
    exact ⟨(resolve_fresh_no_bhuvan api now lat lon).1,
      (resolve_fresh_no_bhuvan api now lat lon).2⟩

theorem no_bhuvan_outside_box_witness :
    (∀ a b : ℚ, Req.bhuvan a b ∉ (get_soil_data_by_location exnNet [] 0 45 10).2.2) ∧
    ("Bhuvan" : String) ∉ (get_soil_data_by_location exnNet [] 0 45 10).1.sources :=
  no_bhuvan_outside_box exnNet [] 0 45 10 (by norm_num [in_india])
    (by intro k r h; simp [cacheGet] at h)

end SoilApi
